import Mathlib

/-!
Shallow embedding of the FCB activity monitor (src/src/activity_monitor.py).

Activities are rows `(wallet_address, coin_symbol, activity_type, amount_tokens,
amount_usd, block_timestamp, transaction_id)`.  Timestamps are modelled as
seconds (`Nat`); the Python minute truncation `timestamp.replace(second=0,
microsecond=0)` becomes truncation to a multiple of 60.  USD amounts and the
derived scores are modelled as rationals.
-/

namespace FCB

/-- One whale-activity row, as fetched by `get_recent_whale_activity`. -/
structure WhaleActivity where
  wallet : String
  token : String
  activity_type : String
  amount_tokens : ℚ
  amount_usd : ℚ
  timestamp : Nat
  tx_id : String
deriving DecidableEq, Repr

/-- The per-bucket record built at lines 146-152: the dict
`{'wallet', 'type', 'usd_amount', 'timestamp', 'tx_id'}` (the token-amount
column is dropped). -/
structure BucketedActivity where
  wallet : String
  type : String
  usd_amount : ℚ
  timestamp : Nat
  tx_id : String
deriving DecidableEq, Repr

/-- Projection of a row to the dict stored in a time bucket (lines 146-152). -/
def toBucketed (a : WhaleActivity) : BucketedActivity :=
  { wallet := a.wallet
    type := a.activity_type
    usd_amount := a.amount_usd
    timestamp := a.timestamp
    tx_id := a.tx_id }

/-- `timestamp.replace(second=0, microsecond=0)` (line 144): truncate a
second-resolution timestamp down to its minute. -/
def minuteBucket (t : Nat) : Nat := t / 60 * 60

/-- `COORDINATION_THRESHOLD = 3` (line 32). -/
def COORDINATION_THRESHOLD : Nat := 3

/-- `PUMP_INDICATORS['rapid_buys'] = 5` (line 39). -/
def PUMP_INDICATORS_rapid_buys : Nat := 5

/-- `DUMP_INDICATORS['rapid_sells'] = 4` (line 45). -/
def DUMP_INDICATORS_rapid_sells : Nat := 4

/-- First-occurrence deduplication with an accumulator of already-seen
elements; `distinctList` below models both Python dict-key insertion order
and `len(set(...))` cardinality. -/
def dedupAux [DecidableEq α] (seen : List α) : List α → List α
  | [] => []
  | x :: xs => if x ∈ seen then dedupAux seen xs else x :: dedupAux (x :: seen) xs

/-- The distinct elements of a list, in order of first occurrence. -/
def distinctList [DecidableEq α] (l : List α) : List α := dedupAux [] l

/-- `len(set(l))`. -/
def numDistinct [DecidableEq α] (l : List α) : Nat := (distinctList l).length

/-- The keys of `token_activities` (line 140): tokens in order of first
appearance in the activity list. -/
def tokensIn (activities : List WhaleActivity) : List String :=
  distinctList (activities.map (·.token))

/-- The keys of `token_activities[token]`: minute buckets of this token's
activities, in order of first appearance. -/
def bucketsIn (activities : List WhaleActivity) (token : String) : List Nat :=
  distinctList ((activities.filter fun a => a.token = token).map
    fun a => minuteBucket a.timestamp)

/-- `token_activities[token][time_bucket]` (lines 142-152): the activities of
`token` whose timestamp truncates to `time_bucket`, in input order, projected
to the stored dict. -/
def bucketActivities (activities : List WhaleActivity) (token : String)
    (time_bucket : Nat) : List BucketedActivity :=
  (activities.filter fun a =>
    a.token = token ∧ minuteBucket a.timestamp = time_bucket).map toBucketed

/-- A coordination alert dict (lines 170-178 and 185-193). -/
structure CoordinationAlert where
  type : String
  token : String
  time : Nat
  whale_count : Nat
  total_volume : ℚ
  activities : List BucketedActivity
  confidence : ℚ
deriving DecidableEq, Repr

/-- `buy_activities` (line 162): activities whose type is buy or transfer. -/
def buyActivities (acts : List BucketedActivity) : List BucketedActivity :=
  acts.filter fun a => a.type ∈ (["buy", "transfer"] : List String)

/-- `sell_activities` (line 163): activities whose type is sell. -/
def sellActivities (acts : List BucketedActivity) : List BucketedActivity :=
  acts.filter fun a => a.type = "sell"

/-- The POTENTIAL_PUMP alert appended at lines 170-178. -/
def pumpAlert (token : String) (time_bucket : Nat)
    (buy_acts : List BucketedActivity) : CoordinationAlert :=
  { type := "POTENTIAL_PUMP"
    token := token
    time := time_bucket
    whale_count := numDistinct (buy_acts.map (·.wallet))
    total_volume := (buy_acts.map (·.usd_amount)).sum
    activities := buy_acts
    confidence :=
      min ((numDistinct (buy_acts.map (·.wallet)) : ℚ) / PUMP_INDICATORS_rapid_buys) 1 }

/-- The POTENTIAL_DUMP alert appended at lines 185-193. -/
def dumpAlert (token : String) (time_bucket : Nat)
    (sell_acts : List BucketedActivity) : CoordinationAlert :=
  { type := "POTENTIAL_DUMP"
    token := token
    time := time_bucket
    whale_count := numDistinct (sell_acts.map (·.wallet))
    total_volume := (sell_acts.map (·.usd_amount)).sum
    activities := sell_acts
    confidence :=
      min ((numDistinct (sell_acts.map (·.wallet)) : ℚ) / DUMP_INDICATORS_rapid_sells) 1 }

/-- The alerts contributed by one (token, time_bucket) group (lines 158-193):
nothing below the coordination threshold, otherwise the pump test and the dump
test fire independently. -/
def bucketAlerts (token : String) (time_bucket : Nat)
    (acts_in_bucket : List BucketedActivity) : List CoordinationAlert :=
  if COORDINATION_THRESHOLD ≤ acts_in_bucket.length then
    (if PUMP_INDICATORS_rapid_buys ≤ (buyActivities acts_in_bucket).length then
      [pumpAlert token time_bucket (buyActivities acts_in_bucket)]
    else []) ++
    (if DUMP_INDICATORS_rapid_sells ≤ (sellActivities acts_in_bucket).length then
      [dumpAlert token time_bucket (sellActivities acts_in_bucket)]
    else [])
  else []

/-- `detect_coordination_patterns` (lines 134-195): bucket the activities by
(token, minute) and run the pump and dump tests on every bucket meeting the
coordination threshold. -/
def detect_coordination_patterns (activities : List WhaleActivity) :
    List CoordinationAlert :=
  if activities.isEmpty then []
  else
    (tokensIn activities).flatMap fun token =>
      (bucketsIn activities token).flatMap fun time_bucket =>
        bucketAlerts token time_bucket (bucketActivities activities token time_bucket)

/-- A wallet-correlation dict (lines 240-247). -/
structure WalletCorrelation where
  wallet_a : String
  wallet_b : String
  common_tokens : List String
  time_correlations : Nat
  correlation_score : ℚ
  suspicion_level : String
deriving DecidableEq, Repr

/-- `wallet_activities[w]` (lines 203-206): the activities of wallet `w`, in
input order. -/
def walletActivities (activities : List WhaleActivity) (w : String) :
    List WhaleActivity :=
  activities.filter fun a => a.wallet = w

/-- `wallet_list` (line 209): wallets in order of first appearance. -/
def walletsIn (activities : List WhaleActivity) : List String :=
  distinctList (activities.map (·.wallet))

/-- The index pairs i < j of the double loop at lines 212-215, as the ordered
pairs of elements of a list. -/
def orderedPairs : List α → List (α × α)
  | [] => []
  | x :: xs => (xs.map fun y => (x, y)) ++ orderedPairs xs

/-- `common_tokens` (lines 221-223): the set intersection of the token sets of
the two wallets, here as a duplicate-free list. -/
def commonTokens (activities : List WhaleActivity) (wallet_a wallet_b : String) :
    List String :=
  (distinctList ((walletActivities activities wallet_a).map (·.token))).filter
    fun t => t ∈ (walletActivities activities wallet_b).map (·.token)

/-- `times_a` / `times_b` (lines 227-228): the timestamps of a wallet's
activities restricted to the common tokens. -/
def restrictedTimes (activities : List WhaleActivity) (w : String)
    (common : List String) : List Nat :=
  ((walletActivities activities w).filter fun a => a.token ∈ common).map
    (·.timestamp)

/-- The double loop at lines 231-235: the number of ordered timestamp pairs at
most 300 seconds apart, each matching pair counted once. -/
def timeCorrelations (times_a times_b : List Nat) : Nat :=
  (times_a.map fun (ta : Nat) =>
    (times_b.filter fun (tb : Nat) =>
      ((ta : Int) - (tb : Int)).natAbs ≤ 300).length).sum

/-- `times_a` of the pair (wallet_a, wallet_b) at line 227. -/
abbrev timesA (acts : List WhaleActivity) (wa wb : String) : List Nat :=
  restrictedTimes acts wa (commonTokens acts wa wb)

/-- `times_b` of the pair (wallet_a, wallet_b) at line 228. -/
abbrev timesB (acts : List WhaleActivity) (wa wb : String) : List Nat :=
  restrictedTimes acts wb (commonTokens acts wa wb)

/-- `time_correlations` of the pair (wallet_a, wallet_b), lines 231-235. -/
abbrev matchCount (acts : List WhaleActivity) (wa wb : String) : Nat :=
  timeCorrelations (timesA acts wa wb) (timesB acts wa wb)

/-- `correlation_score` of the pair (wallet_a, wallet_b), line 238. -/
abbrev pairScore (acts : List WhaleActivity) (wa wb : String) : ℚ :=
  min ((matchCount acts wa wb : ℚ) /
    ((max (timesA acts wa wb).length (timesB acts wa wb).length : Nat) : ℚ)) 1

/-- The body of the pair loop (lines 220-247) for one ordered wallet pair:
`none` when the pair is skipped, otherwise the correlation dict. -/
def correlationFor (activities : List WhaleActivity) (wallet_a wallet_b : String) :
    Option WalletCorrelation :=
  let common := commonTokens activities wallet_a wallet_b
  if 2 ≤ common.length then
    let times_a := restrictedTimes activities wallet_a common
    let times_b := restrictedTimes activities wallet_b common
    let tc := timeCorrelations times_a times_b
    if 2 ≤ tc then
      let score : ℚ :=
        min ((tc : ℚ) / ((max times_a.length times_b.length : Nat) : ℚ)) 1
      some
        { wallet_a := wallet_a
          wallet_b := wallet_b
          common_tokens := common
          time_correlations := tc
          correlation_score := score
          suspicion_level := if (7 / 10 : ℚ) < score then "HIGH" else "MEDIUM" }
    else none
  else none

/-- `analyze_wallet_correlations` (lines 197-249): compare every ordered pair
of distinct wallets and collect the reported correlations. -/
def analyze_wallet_correlations (activities : List WhaleActivity) :
    List WalletCorrelation :=
  if activities.length < 2 then []
  else
    (orderedPairs (walletsIn activities)).filterMap fun p =>
      correlationFor activities p.1 p.2

/-- The concatenation of all time buckets, in traversal order of the nested
grouping dicts. -/
def allBucketedActivities (acts : List WhaleActivity) : List BucketedActivity :=
  (tokensIn acts).flatMap fun tok =>
    (bucketsIn acts tok).flatMap fun b => bucketActivities acts tok b

/-- The token list a wallet touched (lines 221-222), before taking the set. -/
def tokensTouched (acts : List WhaleActivity) (w : String) : List String :=
  (walletActivities acts w).map (·.token)

/-- Outcome of one store read, as seen by `get_recent_whale_activity`
(lines 94-121): the connection may fail (line 97), the query may raise
(line 117), or rows come back. -/
inductive StoreFetch (α : Type)
  | connectionFailed
  | queryRaised (msg : String)
  | ok (rows : α)

/-- `get_recent_whale_activity` (lines 94-121): a failed connection and a
raised query both yield the empty list; otherwise the fetched rows. -/
def get_recent_whale_activity (fetch : StoreFetch (List WhaleActivity)) :
    List WhaleActivity :=
  match fetch with
  | .connectionFailed => []
  | .queryRaised _ => []
  | .ok rows => rows

/-- What one scan reports: the alerts printed at lines 340-344 and the
`alerts_generated` counter returned at line 365. -/
structure ScanReport where
  printed_alerts : List CoordinationAlert
  alerts_generated : Nat
deriving DecidableEq, Repr

/-- `monitor_whale_activity` (lines 297-365), with the outcome of each
`save_alert_to_database` call supplied by the oracle `saveOk` (the store is
external).  Every coordination alert is printed; only alerts whose save
succeeded are counted (lines 347-348). -/
def monitor_whale_activity (recent_activities : List WhaleActivity)
    (saveOk : CoordinationAlert → Bool) : ScanReport :=
  if recent_activities.isEmpty then { printed_alerts := [], alerts_generated := 0 }
  else
    { printed_alerts := detect_coordination_patterns recent_activities
      alerts_generated :=
        List.countP saveOk (detect_coordination_patterns recent_activities) }

/-- The counters owned by the orchestrator (lines 52-53). -/
structure MonitorState where
  scan_count : Nat
  total_alerts : Nat
deriving DecidableEq, Repr

/-- How one iteration of the `while True` loop (lines 382-405) ends: the scan
returns an alert count, the scan raises and is caught by the generic handler
(lines 402-405), or a keyboard interrupt arrives (lines 399-401). -/
inductive ScanOutcome
  | completes (alerts : Nat)
  | raises (msg : String)
  | interrupted
deriving DecidableEq, Repr

/-- `run_monitoring_loop` (lines 382-405) driven by a trace of iteration
outcomes; the Bool records whether the loop stopped via the keyboard
interrupt `break`.  A raising scan bumps the scan counter (incremented
before the scan, line 384), adds no alerts, and the loop continues. -/
def run_monitoring_loop (st : MonitorState) :
    List ScanOutcome → MonitorState × Bool
  | [] => (st, false)
  | ScanOutcome.interrupted :: _ => (st, true)
  | ScanOutcome.completes alerts :: evs =>
      run_monitoring_loop
        { scan_count := st.scan_count + 1
          total_alerts := st.total_alerts + alerts } evs
  | ScanOutcome.raises _ :: evs =>
      run_monitoring_loop { st with scan_count := st.scan_count + 1 } evs

/-! ### Concrete inputs used by the witnesses -/

/-- Shorthand for building an activity row. -/
def mkAct (w tok ty : String) (usd : ℚ) (ts : Nat) (tx : String) : WhaleActivity :=
  { wallet := w
    token := tok
    activity_type := ty
    amount_tokens := 1
    amount_usd := usd
    timestamp := ts
    tx_id := tx }

/-- Five distinct wallets buying the same token within the same minute. -/
def pumpExample : List WhaleActivity :=
  [mkAct "w1" "PEPE" "buy" 2000 60 "t1",
   mkAct "w2" "PEPE" "buy" 3000 70 "t2",
   mkAct "w3" "PEPE" "buy" 1500 80 "t3",
   mkAct "w4" "PEPE" "transfer" 2500 90 "t4",
   mkAct "w5" "PEPE" "buy" 4000 110 "t5"]

/-- One wallet making five buys of the same token within one minute. -/
def singleWalletExample : List WhaleActivity :=
  [mkAct "w1" "PEPE" "buy" 2000 60 "t1",
   mkAct "w1" "PEPE" "buy" 2000 61 "t2",
   mkAct "w1" "PEPE" "buy" 2000 62 "t3",
   mkAct "w1" "PEPE" "buy" 2000 63 "t4",
   mkAct "w1" "PEPE" "buy" 2000 64 "t5"]

/-- Four distinct wallets buying and three distinct wallets selling the same
token in the same minute. -/
def dumpAbsentExample : List WhaleActivity :=
  [mkAct "b1" "UNI" "buy" 2000 10 "x1",
   mkAct "b2" "UNI" "buy" 2000 15 "x2",
   mkAct "b3" "UNI" "buy" 2000 20 "x3",
   mkAct "b4" "UNI" "buy" 2000 25 "x4",
   mkAct "s1" "UNI" "sell" 2000 30 "x5",
   mkAct "s2" "UNI" "sell" 2000 35 "x6",
   mkAct "s3" "UNI" "sell" 2000 40 "x7"]

/-- Ten distinct wallets buying the same token within the same minute. -/
def tenWalletExample : List WhaleActivity :=
  [mkAct "v1" "UNI" "buy" 1100 0 "y1",
   mkAct "v2" "UNI" "buy" 1200 5 "y2",
   mkAct "v3" "UNI" "buy" 1300 10 "y3",
   mkAct "v4" "UNI" "buy" 1400 15 "y4",
   mkAct "v5" "UNI" "buy" 1500 20 "y5",
   mkAct "v6" "UNI" "buy" 1600 25 "y6",
   mkAct "v7" "UNI" "buy" 1700 30 "y7",
   mkAct "v8" "UNI" "buy" 1800 35 "y8",
   mkAct "v9" "UNI" "buy" 1900 40 "y9",
   mkAct "v10" "UNI" "buy" 2000 45 "y10"]

/-- Two wallets trading two common tokens with closely spaced timestamps. -/
def correlationExample : List WhaleActivity :=
  [mkAct "a" "UNI" "buy" 2000 0 "u1",
   mkAct "a" "LINK" "buy" 2000 1000 "u2",
   mkAct "b" "UNI" "sell" 2000 50 "u3",
   mkAct "b" "LINK" "sell" 2000 1100 "u4"]

/-- Three wallets: a and b share two tokens with close timestamps, while z
trades only one token that a also trades. -/
def trioExample : List WhaleActivity :=
  [mkAct "a" "UNI" "buy" 2000 0 "u1",
   mkAct "a" "LINK" "buy" 2000 1000 "u2",
   mkAct "b" "UNI" "sell" 2000 50 "u3",
   mkAct "b" "LINK" "sell" 2000 1100 "u4",
   mkAct "z" "UNI" "sell" 2000 60 "u5"]

/-! ### Basic lemmas about the grouping infrastructure -/

theorem mem_dedupAux [DecidableEq α] {a : α} (seen : List α) (l : List α) :
    a ∈ dedupAux seen l ↔ a ∈ l ∧ a ∉ seen := by
  induction l generalizing seen with
  | nil => simp [dedupAux]
  | cons x xs ih =>
    by_cases hx : x ∈ seen
    · rw [dedupAux, if_pos hx, ih]
      simp only [List.mem_cons]
      constructor
      · rintro ⟨h1, h2⟩; exact ⟨Or.inr h1, h2⟩
      · rintro ⟨rfl | h1, h2⟩
        · exact absurd hx h2
        · exact ⟨h1, h2⟩
    · rw [dedupAux, if_neg hx]
      simp only [List.mem_cons, ih]
      constructor
      · rintro (rfl | ⟨h1, h2⟩)
        · exact ⟨Or.inl rfl, hx⟩
        · exact ⟨Or.inr h1, fun hs => h2 (Or.inr hs)⟩
      · rintro ⟨rfl | h1, h2⟩
        · exact Or.inl rfl
        · by_cases hax : a = x
          · exact Or.inl hax
          · exact Or.inr ⟨h1, fun hs => hs.elim hax h2⟩

theorem mem_distinctList [DecidableEq α] {a : α} {l : List α} :
    a ∈ distinctList l ↔ a ∈ l := by
  simp [distinctList, mem_dedupAux]

theorem nodup_dedupAux [DecidableEq α] (seen : List α) (l : List α) :
    (dedupAux seen l).Nodup := by
  induction l generalizing seen with
  | nil => simp [dedupAux]
  | cons x xs ih =>
    by_cases hx : x ∈ seen
    · rw [dedupAux, if_pos hx]; exact ih seen
    · rw [dedupAux, if_neg hx]
      refine List.nodup_cons.mpr ⟨?_, ih (x :: seen)⟩
      intro hmem
      exact ((mem_dedupAux _ _).mp hmem).2 (List.mem_cons_self x seen)

theorem nodup_distinctList [DecidableEq α] (l : List α) :
    (distinctList l).Nodup := nodup_dedupAux [] l

theorem mem_orderedPairs {l : List α} {x y : α} :
    (x, y) ∈ orderedPairs l → x ∈ l ∧ y ∈ l := by
  induction l with
  | nil => simp [orderedPairs]
  | cons z zs ih =>
    intro h
    simp only [orderedPairs, List.mem_append, List.mem_map] at h
    rcases h with ⟨w, hw, heq⟩ | h
    · cases heq
      exact ⟨List.mem_cons_self _ _, List.mem_cons_of_mem _ hw⟩
    · exact ⟨List.mem_cons_of_mem _ (ih h).1, List.mem_cons_of_mem _ (ih h).2⟩

/-! ### Partition permutation: grouping by key loses and duplicates nothing -/

theorem flatMap_perm_congr {l : List α} {f g : α → List β}
    (h : ∀ a ∈ l, List.Perm (f a) (g a)) : List.Perm (l.flatMap f) (l.flatMap g) := by
  induction l with
  | nil => simp
  | cons x xs ih =>
    simp only [List.flatMap_cons]
    exact (h x (List.mem_cons_self ..)).append
      (ih fun a ha => h a (List.mem_cons_of_mem _ ha))

theorem flatMap_cons_ite_perm [DecidableEq κ] (k0 : κ) (a : α) (g : κ → List α) :
    ∀ (ks : List κ), ks.Nodup → k0 ∈ ks →
    List.Perm (ks.flatMap fun k => if k0 = k then a :: g k else g k)
      (a :: ks.flatMap g) := by
  intro ks
  induction ks with
  | nil => intro _ h; cases h
  | cons k ks ih =>
    intro hnd hk
    by_cases hk0 : k0 = k
    · subst hk0
      have hnotin : k0 ∉ ks := (List.nodup_cons.mp hnd).1
      have hrest : (ks.flatMap fun k => if k0 = k then a :: g k else g k) =
          ks.flatMap g := by
        refine List.flatMap_congr fun x hx => ?_
        have hne : k0 ≠ x := fun h => hnotin (h ▸ hx)
        simp [hne]
      rw [List.flatMap_cons, List.flatMap_cons, if_pos rfl, hrest,
        List.cons_append]
    · have hk' : k0 ∈ ks := by
        rcases List.mem_cons.mp hk with h | h
        · exact absurd h hk0
        · exact h
      have ihp := ih (List.nodup_cons.mp hnd).2 hk'
      have h1 : ((k :: ks).flatMap fun k => if k0 = k then a :: g k else g k) =
          g k ++ ks.flatMap fun k => if k0 = k then a :: g k else g k := by
        rw [List.flatMap_cons, if_neg hk0]
      rw [h1, List.flatMap_cons]
      exact (List.Perm.append_left (g k) ihp).trans List.perm_middle

theorem partition_by_key_perm [DecidableEq κ] (key : α → κ) :
    ∀ (l : List α) (ks : List κ), ks.Nodup → (∀ a ∈ l, key a ∈ ks) →
    List.Perm (ks.flatMap fun k => l.filter fun a => key a = k) l := by
  intro l
  induction l with
  | nil => intro ks _ _; simp
  | cons a l ih =>
    intro ks hnd hcov
    have hstep : (ks.flatMap fun k => (a :: l).filter fun x => key x = k) =
        ks.flatMap fun k =>
          if key a = k then a :: l.filter (fun x => key x = k)
          else l.filter fun x => key x = k := by
      refine List.flatMap_congr fun k _ => ?_
      by_cases h : key a = k
      · simp [List.filter_cons, h]
      · simp [List.filter_cons, h]
    rw [hstep]
    refine (flatMap_cons_ite_perm (key a) a _ ks hnd
      (hcov a (List.mem_cons_self _ _))).trans ?_
    exact (ih ks hnd fun x hx => hcov x (List.mem_cons_of_mem _ hx)).cons a

/-! ### Characterizing the buckets and the emitted alerts -/

theorem mem_bucketActivities {acts : List WhaleActivity} {tok : String} {b : Nat}
    {x : BucketedActivity} :
    x ∈ bucketActivities acts tok b ↔
      ∃ a ∈ acts, a.token = tok ∧ minuteBucket a.timestamp = b ∧ toBucketed a = x := by
  simp only [bucketActivities, List.mem_map, List.mem_filter, decide_eq_true_eq]
  constructor
  · rintro ⟨a, ⟨ha, h1, h2⟩, h3⟩; exact ⟨a, ha, h1, h2, h3⟩
  · rintro ⟨a, ha, h1, h2, h3⟩; exact ⟨a, ⟨ha, h1, h2⟩, h3⟩

theorem token_mem_tokensIn {acts : List WhaleActivity} {a : WhaleActivity}
    (ha : a ∈ acts) : a.token ∈ tokensIn acts :=
  mem_distinctList.mpr (List.mem_map_of_mem _ ha)

theorem bucket_mem_bucketsIn {acts : List WhaleActivity} {a : WhaleActivity}
    {tok : String} (ha : a ∈ acts) (ht : a.token = tok) :
    minuteBucket a.timestamp ∈ bucketsIn acts tok := by
  refine mem_distinctList.mpr (List.mem_map_of_mem _ ?_)
  exact List.mem_filter.mpr ⟨ha, by simp [ht]⟩

theorem mem_detect {acts : List WhaleActivity} {al : CoordinationAlert} :
    al ∈ detect_coordination_patterns acts ↔
      ∃ tok ∈ tokensIn acts, ∃ b ∈ bucketsIn acts tok,
        al ∈ bucketAlerts tok b (bucketActivities acts tok b) := by
  unfold detect_coordination_patterns
  by_cases h : acts.isEmpty
  · have : acts = [] := List.isEmpty_iff.mp h
    subst this
    simp [tokensIn, distinctList, dedupAux]
  · simp [h, List.mem_flatMap]

theorem mem_bucketAlerts {tok : String} {b : Nat} {g : List BucketedActivity}
    {al : CoordinationAlert} :
    al ∈ bucketAlerts tok b g ↔
      COORDINATION_THRESHOLD ≤ g.length ∧
        ((PUMP_INDICATORS_rapid_buys ≤ (buyActivities g).length ∧
            al = pumpAlert tok b (buyActivities g)) ∨
         (DUMP_INDICATORS_rapid_sells ≤ (sellActivities g).length ∧
            al = dumpAlert tok b (sellActivities g))) := by
  unfold bucketAlerts
  by_cases h3 : COORDINATION_THRESHOLD ≤ g.length
  · by_cases hp : PUMP_INDICATORS_rapid_buys ≤ (buyActivities g).length
    · by_cases hd : DUMP_INDICATORS_rapid_sells ≤ (sellActivities g).length
      · simp [h3, hp, hd]
      · simp [h3, hp, hd]
    · by_cases hd : DUMP_INDICATORS_rapid_sells ≤ (sellActivities g).length
      · simp [h3, hp, hd]
      · simp [h3, hp, hd]
  · simp [h3]

theorem filter_token_bucket (acts : List WhaleActivity) (tok : String) (b : Nat) :
    (acts.filter fun a => a.token = tok ∧ minuteBucket a.timestamp = b) =
      (acts.filter fun a => a.token = tok).filter
        fun a => minuteBucket a.timestamp = b := by
  rw [List.filter_filter]
  refine List.filter_congr fun a _ => ?_
  by_cases h1 : a.token = tok <;> by_cases h2 : minuteBucket a.timestamp = b <;>
    simp [h1, h2]

theorem allBucketed_perm (acts : List WhaleActivity) :
    List.Perm (allBucketedActivities acts) (acts.map toBucketed) := by
  have hinner : ∀ tok,
      List.Perm ((bucketsIn acts tok).flatMap fun b =>
          acts.filter fun a => a.token = tok ∧ minuteBucket a.timestamp = b)
        (acts.filter fun a => a.token = tok) := by
    intro tok
    have hcov : ∀ a ∈ acts.filter (fun a => a.token = tok),
        minuteBucket a.timestamp ∈ bucketsIn acts tok :=
      fun a ha => mem_distinctList.mpr (List.mem_map_of_mem _ ha)
    have hpart := partition_by_key_perm (fun a => minuteBucket a.timestamp)
      (acts.filter fun a => a.token = tok) (bucketsIn acts tok)
      (nodup_distinctList _) hcov
    have heq : ((bucketsIn acts tok).flatMap fun b =>
        acts.filter fun a => a.token = tok ∧ minuteBucket a.timestamp = b) =
        (bucketsIn acts tok).flatMap fun b =>
          (acts.filter fun a => a.token = tok).filter
            fun a => minuteBucket a.timestamp = b :=
      List.flatMap_congr fun b _ => filter_token_bucket acts tok b
    rw [heq]
    exact hpart
  have h1 : allBucketedActivities acts =
      ((tokensIn acts).flatMap fun tok =>
        (bucketsIn acts tok).flatMap fun b =>
          acts.filter fun a =>
            a.token = tok ∧ minuteBucket a.timestamp = b).map toBucketed := by
    unfold allBucketedActivities bucketActivities
    rw [List.map_flatMap]
    refine List.flatMap_congr fun tok _ => ?_
    rw [List.map_flatMap]
  rw [h1]
  refine List.Perm.map toBucketed ?_
  refine (flatMap_perm_congr fun tok _ => hinner tok).trans ?_
  exact partition_by_key_perm (fun a => a.token) acts (tokensIn acts)
    (nodup_distinctList _)
    (fun a ha => mem_distinctList.mpr (List.mem_map_of_mem _ ha))

/-! ### Characterizing the reported correlations -/

theorem mem_analyze {acts : List WhaleActivity} {c : WalletCorrelation} :
    c ∈ analyze_wallet_correlations acts ↔
      ¬ acts.length < 2 ∧
        ∃ x y, (x, y) ∈ orderedPairs (walletsIn acts) ∧
          correlationFor acts x y = some c := by
  unfold analyze_wallet_correlations
  by_cases h : acts.length < 2
  · simp [h]
  · simp only [h, if_neg, List.mem_filterMap, not_false_iff, true_and]
    constructor
    · rintro ⟨⟨x, y⟩, hp, hs⟩
      exact ⟨x, y, hp, hs⟩
    · rintro ⟨x, y, hp, hs⟩
      exact ⟨(x, y), hp, hs⟩

theorem correlationFor_eq_some {acts : List WhaleActivity} {wa wb : String}
    {c : WalletCorrelation} (h : correlationFor acts wa wb = some c) :
    c.wallet_a = wa ∧ c.wallet_b = wb ∧
      c.common_tokens = commonTokens acts wa wb ∧
      2 ≤ (commonTokens acts wa wb).length ∧
      c.time_correlations =
        timeCorrelations (restrictedTimes acts wa (commonTokens acts wa wb))
          (restrictedTimes acts wb (commonTokens acts wa wb)) ∧
      2 ≤ c.time_correlations ∧
      c.correlation_score =
        min ((c.time_correlations : ℚ) /
          ((max (restrictedTimes acts wa (commonTokens acts wa wb)).length
            (restrictedTimes acts wb (commonTokens acts wa wb)).length : Nat) : ℚ))
          1 ∧
      c.suspicion_level =
        (if (7 / 10 : ℚ) < c.correlation_score then "HIGH" else "MEDIUM") := by
  unfold correlationFor at h
  simp only [] at h
  split at h
  · split at h
    · injection h with h
      subst h
      refine ⟨rfl, rfl, rfl, by assumption, rfl, by assumption, rfl, rfl⟩
    · exact absurd h (by simp)
  · exact absurd h (by simp)

theorem pair_length_two {acts : List WhaleActivity} {wa wb : String}
    (h : (wa, wb) ∈ orderedPairs (walletsIn acts)) : ¬ acts.length < 2 := by
  match acts with
  | [] => simp [walletsIn, distinctList, dedupAux, orderedPairs] at h
  | [a] => simp [walletsIn, distinctList, dedupAux, orderedPairs] at h
  | a :: b :: rest => simp

theorem commonTokens_length (acts : List WhaleActivity) (x y : String) :
    (commonTokens acts x y).length =
      ((tokensTouched acts x).toFinset ∩ (tokensTouched acts y).toFinset).card := by
  have hnd : (commonTokens acts x y).Nodup :=
    List.Nodup.filter _ (nodup_distinctList _)
  rw [← List.toFinset_card_of_nodup hnd]
  congr 1
  ext t
  simp only [List.mem_toFinset, commonTokens, List.mem_filter, mem_distinctList,
    Finset.mem_inter, tokensTouched, decide_eq_true_eq]

/-- The score formula used by both alert kinds: a ratio of counts clamped by
`min` at 1. -/
theorem clamped_ratio_bounds (n d : Nat) :
    0 ≤ min ((n : ℚ) / (d : ℚ)) 1 ∧ min ((n : ℚ) / (d : ℚ)) 1 ≤ 1 := by
  constructor
  · exact le_min (div_nonneg (Nat.cast_nonneg n) (Nat.cast_nonneg d)) zero_le_one
  · exact min_le_right _ _

theorem clamped_ratio_saturates {n d : Nat} (hd : 0 < d) (h : d ≤ n) :
    min ((n : ℚ) / (d : ℚ)) 1 = 1 := by
  have hd' : (0 : ℚ) < (d : ℚ) := by exact_mod_cast hd
  have h' : (d : ℚ) ≤ (n : ℚ) := by exact_mod_cast h
  have : (1 : ℚ) ≤ (n : ℚ) / (d : ℚ) := (one_le_div hd').mpr h'
  exact min_eq_right this

theorem timeCorrelations_eq_product (ta tb : List Nat) :
    timeCorrelations ta tb =
      ((ta.product tb).filter
        fun p => ((p.1 : Int) - (p.2 : Int)).natAbs ≤ 300).length := by
  induction ta with
  | nil => simp [timeCorrelations, List.product]
  | cons x xs ih =>
    have hprod : (x :: xs).product tb = tb.map (Prod.mk x) ++ xs.product tb := by
      simp [List.product]
    rw [hprod, List.filter_append, List.length_append, ← ih]
    have hmap : ((tb.map (Prod.mk x)).filter
        (fun p => ((p.1 : Int) - (p.2 : Int)).natAbs ≤ 300)).length =
        (tb.filter fun (t : Nat) => ((x : Int) - (t : Int)).natAbs ≤ 300).length := by
      rw [List.filter_map]
      rw [List.length_map]
      rfl
    rw [hmap]
    simp [timeCorrelations]

theorem correlationFor_fires (acts : List WhaleActivity) (wa wb : String)
    (hcommon : 2 ≤ (commonTokens acts wa wb).length)
    (htc : 2 ≤ matchCount acts wa wb) :
    correlationFor acts wa wb = some
      { wallet_a := wa
        wallet_b := wb
        common_tokens := commonTokens acts wa wb
        time_correlations := matchCount acts wa wb
        correlation_score := pairScore acts wa wb
        suspicion_level :=
          if (7 / 10 : ℚ) < pairScore acts wa wb then "HIGH" else "MEDIUM" } := by
  unfold correlationFor
  simp only []
  rw [if_pos hcommon, if_pos htc]

/-! ### Claims -/

/-- C1: for every (token, minute-bucket) group meeting the coordination
threshold whose buy-like activity count reaches the rapid-buy threshold,
`detect_coordination_patterns` emits the POTENTIAL_PUMP alert whose
whale count is the number of distinct wallets among the buy-like activities,
whose confidence is min(distinct wallets / 5, 1), and whose total volume is
the sum of the USD amounts of the buy-like activities. -/
theorem C1_pump_emission (acts : List WhaleActivity) (tok : String) (b : Nat)
    (h3 : COORDINATION_THRESHOLD ≤ (bucketActivities acts tok b).length)
    (h5 : PUMP_INDICATORS_rapid_buys ≤
      (buyActivities (bucketActivities acts tok b)).length) :
    pumpAlert tok b (buyActivities (bucketActivities acts tok b)) ∈
        detect_coordination_patterns acts ∧
      (pumpAlert tok b (buyActivities (bucketActivities acts tok b))).type =
        "POTENTIAL_PUMP" ∧
      (pumpAlert tok b (buyActivities (bucketActivities acts tok b))).whale_count =
        numDistinct
          ((buyActivities (bucketActivities acts tok b)).map (·.wallet)) ∧
      (pumpAlert tok b (buyActivities (bucketActivities acts tok b))).confidence =
        min ((numDistinct
          ((buyActivities (bucketActivities acts tok b)).map (·.wallet)) : ℚ) / 5)
          1 ∧
      (pumpAlert tok b (buyActivities (bucketActivities acts tok b))).total_volume =
        ((buyActivities (bucketActivities acts tok b)).map (·.usd_amount)).sum := by
  refine ⟨?_, rfl, rfl, by simp [pumpAlert, PUMP_INDICATORS_rapid_buys], rfl⟩
  have hne : bucketActivities acts tok b ≠ [] := by
    intro h
    rw [h] at h3
    simp [COORDINATION_THRESHOLD] at h3
  obtain ⟨x, hx⟩ := List.exists_mem_of_ne_nil _ hne
  obtain ⟨a, ha, htok, hb, -⟩ := mem_bucketActivities.mp hx
  refine mem_detect.mpr ⟨tok, ?_, b, ?_, ?_⟩
  · exact htok ▸ token_mem_tokensIn ha
  · exact hb ▸ bucket_mem_bucketsIn ha htok
  · exact mem_bucketAlerts.mpr ⟨h3, Or.inl ⟨h5, rfl⟩⟩

theorem C1_pump_emission_witness :
    (COORDINATION_THRESHOLD ≤ (bucketActivities pumpExample "PEPE" 60).length ∧
      PUMP_INDICATORS_rapid_buys ≤
        (buyActivities (bucketActivities pumpExample "PEPE" 60)).length) ∧
    pumpAlert "PEPE" 60 (buyActivities (bucketActivities pumpExample "PEPE" 60)) ∈
      detect_coordination_patterns pumpExample ∧
    (pumpAlert "PEPE" 60
      (buyActivities (bucketActivities pumpExample "PEPE" 60))).whale_count = 5 ∧
    (pumpAlert "PEPE" 60
      (buyActivities (bucketActivities pumpExample "PEPE" 60))).confidence = 1 :=
  ⟨⟨by decide, by decide⟩,
    (C1_pump_emission pumpExample "PEPE" 60 (by decide) (by decide)).1,
    by decide, clamped_ratio_saturates (by decide) (by decide)⟩

/-- C9: the pump gate counts buy-like activities, not distinct wallets, so a
single wallet making five buys of one token within one minute fires a
POTENTIAL_PUMP alert with whale_count 1 and confidence 1/5. -/
theorem C9_single_wallet_pump :
    detect_coordination_patterns singleWalletExample =
      [pumpAlert "PEPE" 60
        (buyActivities (bucketActivities singleWalletExample "PEPE" 60))] ∧
    (pumpAlert "PEPE" 60
      (buyActivities (bucketActivities singleWalletExample "PEPE" 60))).type =
        "POTENTIAL_PUMP" ∧
    (pumpAlert "PEPE" 60
      (buyActivities (bucketActivities singleWalletExample "PEPE" 60))).whale_count
        = 1 ∧
    (pumpAlert "PEPE" 60
      (buyActivities (bucketActivities singleWalletExample "PEPE" 60))).confidence
        = 1 / 5 := by
  refine ⟨?_, rfl, by decide, ?_⟩
  · have htok : tokensIn singleWalletExample = ["PEPE"] := by decide
    have hbuck : bucketsIn singleWalletExample "PEPE" = [60] := by decide
    have hc : COORDINATION_THRESHOLD ≤
        (bucketActivities singleWalletExample "PEPE" 60).length := by decide
    have hp : PUMP_INDICATORS_rapid_buys ≤
        (buyActivities (bucketActivities singleWalletExample "PEPE" 60)).length := by
      decide
    have hd : ¬ DUMP_INDICATORS_rapid_sells ≤
        (sellActivities (bucketActivities singleWalletExample "PEPE" 60)).length := by
      decide
    rw [detect_coordination_patterns, if_neg (by decide), htok]
    simp [hbuck, bucketAlerts, hc, hp, hd]
  · have h1 : numDistinct
        ((buyActivities (bucketActivities singleWalletExample "PEPE" 60)).map
          (·.wallet)) = 1 := by decide
    show min ((numDistinct
      ((buyActivities (bucketActivities singleWalletExample "PEPE" 60)).map
        (·.wallet)) : ℚ) / (PUMP_INDICATORS_rapid_buys : ℚ)) 1 = 1 / 5
    rw [h1]
    norm_num [PUMP_INDICATORS_rapid_buys]

/-- C3: every activity lands in the bucket of its token and truncated minute,
the concatenation of all buckets is a permutation of the input (no activity
dropped or duplicated), and two activities agreeing on token and truncated
minute land in the same bucket. -/
theorem C3_bucket_partition (acts : List WhaleActivity) :
    (∀ a ∈ acts,
      toBucketed a ∈ bucketActivities acts a.token (minuteBucket a.timestamp)) ∧
    List.Perm (allBucketedActivities acts) (acts.map toBucketed) ∧
    (∀ a1 ∈ acts, ∀ a2 ∈ acts, a1.token = a2.token →
      minuteBucket a1.timestamp = minuteBucket a2.timestamp →
      toBucketed a1 ∈ bucketActivities acts a1.token (minuteBucket a1.timestamp) ∧
      toBucketed a2 ∈ bucketActivities acts a1.token (minuteBucket a1.timestamp)) := by
  have hmem : ∀ a ∈ acts,
      toBucketed a ∈ bucketActivities acts a.token (minuteBucket a.timestamp) :=
    fun a ha => mem_bucketActivities.mpr ⟨a, ha, rfl, rfl, rfl⟩
  refine ⟨hmem, allBucketed_perm acts, ?_⟩
  intro a1 h1 a2 h2 ht hb
  refine ⟨hmem a1 h1, ?_⟩
  have h := hmem a2 h2
  rw [← ht, ← hb] at h
  exact h

theorem C3_bucket_partition_witness :
    mkAct "w1" "PEPE" "buy" 2000 60 "t1" ∈ pumpExample ∧
    toBucketed (mkAct "w1" "PEPE" "buy" 2000 60 "t1") ∈
      bucketActivities pumpExample (mkAct "w1" "PEPE" "buy" 2000 60 "t1").token
        (minuteBucket (mkAct "w1" "PEPE" "buy" 2000 60 "t1").timestamp) ∧
    List.Perm (allBucketedActivities pumpExample) (pumpExample.map toBucketed) :=
  ⟨by decide, (C3_bucket_partition pumpExample).1 _ (by decide),
    (C3_bucket_partition pumpExample).2.1⟩

/-- C2: every confidence score of `detect_coordination_patterns` and every
correlation score of `analyze_wallet_correlations` lies in [0, 1], and the
confidence saturates at exactly 1 as soon as the distinct-wallet count reaches
the rapid-buy threshold (so the unclamped ratio is at least 1). -/
theorem C2_scores_in_unit_interval (acts : List WhaleActivity) :
    (∀ al ∈ detect_coordination_patterns acts,
      0 ≤ al.confidence ∧ al.confidence ≤ 1 ∧
        (PUMP_INDICATORS_rapid_buys ≤ al.whale_count → al.confidence = 1)) ∧
    (∀ c ∈ analyze_wallet_correlations acts,
      0 ≤ c.correlation_score ∧ c.correlation_score ≤ 1) := by
  constructor
  · intro al hal
    obtain ⟨tok, -, b, -, hmem⟩ := mem_detect.mp hal
    obtain ⟨-, hcase⟩ := mem_bucketAlerts.mp hmem
    rcases hcase with ⟨hlen, rfl⟩ | ⟨hlen, rfl⟩
    · refine ⟨(clamped_ratio_bounds _ _).1, (clamped_ratio_bounds _ _).2, ?_⟩
      intro hwc
      exact clamped_ratio_saturates (by decide) hwc
    · refine ⟨(clamped_ratio_bounds _ _).1, (clamped_ratio_bounds _ _).2, ?_⟩
      intro hwc
      exact clamped_ratio_saturates (by decide) (le_trans (by decide) hwc)
  · intro c hc
    obtain ⟨-, x, y, -, hsome⟩ := mem_analyze.mp hc
    obtain ⟨-, -, -, -, -, -, hscore, -⟩ := correlationFor_eq_some hsome
    rw [hscore]
    exact ⟨(clamped_ratio_bounds _ _).1, (clamped_ratio_bounds _ _).2⟩

set_option maxHeartbeats 1000000 in
theorem C2_scores_in_unit_interval_witness :
    pumpAlert "UNI" 0 (buyActivities (bucketActivities tenWalletExample "UNI" 0)) ∈
      detect_coordination_patterns tenWalletExample ∧
    (pumpAlert "UNI" 0
      (buyActivities (bucketActivities tenWalletExample "UNI" 0))).whale_count = 10 ∧
    0 ≤ (pumpAlert "UNI" 0
      (buyActivities (bucketActivities tenWalletExample "UNI" 0))).confidence ∧
    (pumpAlert "UNI" 0
      (buyActivities (bucketActivities tenWalletExample "UNI" 0))).confidence ≤ 1 ∧
    (pumpAlert "UNI" 0
      (buyActivities (bucketActivities tenWalletExample "UNI" 0))).confidence = 1 :=
  have hmem : pumpAlert "UNI" 0
      (buyActivities (bucketActivities tenWalletExample "UNI" 0)) ∈
      detect_coordination_patterns tenWalletExample :=
    mem_detect.mpr ⟨"UNI", by decide, 0, by decide,
      mem_bucketAlerts.mpr ⟨by decide, Or.inl ⟨by decide, rfl⟩⟩⟩
  have h := (C2_scores_in_unit_interval tenWalletExample).1 _ hmem
  ⟨hmem, by decide, h.1, h.2.1, h.2.2 (by decide)⟩

/-- C4: for a (token, minute-bucket) group meeting the coordination threshold,
a POTENTIAL_DUMP alert for that token and bucket is emitted iff the number of
sell activities in the group reaches the rapid-sell threshold 4. -/
theorem C4_dump_iff (acts : List WhaleActivity) (tok : String) (b : Nat)
    (h3 : COORDINATION_THRESHOLD ≤ (bucketActivities acts tok b).length) :
    (∃ al ∈ detect_coordination_patterns acts,
        al.type = "POTENTIAL_DUMP" ∧ al.token = tok ∧ al.time = b) ↔
      DUMP_INDICATORS_rapid_sells ≤
        (sellActivities (bucketActivities acts tok b)).length := by
  constructor
  · rintro ⟨al, hal, htype, htok, htime⟩
    obtain ⟨tok', -, b', -, hmem⟩ := mem_detect.mp hal
    obtain ⟨-, hcase⟩ := mem_bucketAlerts.mp hmem
    rcases hcase with ⟨hlen, rfl⟩ | ⟨hlen, rfl⟩
    · have hps : ("POTENTIAL_PUMP" : String) = "POTENTIAL_DUMP" := htype
      exact absurd hps (by decide)
    · have ht : tok' = tok := htok
      have hb : b' = b := htime
      subst ht
      subst hb
      exact hlen
  · intro hsell
    have hne : bucketActivities acts tok b ≠ [] := by
      intro h
      rw [h] at h3
      simp [COORDINATION_THRESHOLD] at h3
    obtain ⟨x, hx⟩ := List.exists_mem_of_ne_nil _ hne
    obtain ⟨a, ha, htok, hb, -⟩ := mem_bucketActivities.mp hx
    refine ⟨dumpAlert tok b (sellActivities (bucketActivities acts tok b)),
      ?_, rfl, rfl, rfl⟩
    refine mem_detect.mpr ⟨tok, htok ▸ token_mem_tokensIn ha, b,
      hb ▸ bucket_mem_bucketsIn ha htok, ?_⟩
    exact mem_bucketAlerts.mpr ⟨h3, Or.inr ⟨hsell, rfl⟩⟩

theorem C4_dump_iff_witness :
    COORDINATION_THRESHOLD ≤ (bucketActivities dumpAbsentExample "UNI" 0).length ∧
    ¬ (∃ al ∈ detect_coordination_patterns dumpAbsentExample,
        al.type = "POTENTIAL_DUMP" ∧ al.token = "UNI" ∧ al.time = 0) :=
  ⟨by decide, fun h =>
    absurd ((C4_dump_iff dumpAbsentExample "UNI" 0 (by decide)).mp h) (by decide)⟩

/-- C5: for an examined ordered pair of distinct wallets with at least two
common tokens, the match count is the number of ordered timestamp pairs at
most 300 seconds apart (each counted independently); a WalletCorrelation is
emitted iff the match count is at least 2, carrying
score = min(count / max(|timesA|, |timesB|), 1); and suspicion is HIGH exactly
when the score is strictly greater than 7/10. -/
theorem C5_pair_correlation (acts : List WhaleActivity) (wa wb : String)
    (hpair : (wa, wb) ∈ orderedPairs (walletsIn acts))
    (hcommon : 2 ≤ (commonTokens acts wa wb).length) :
    matchCount acts wa wb =
      (((timesA acts wa wb).product (timesB acts wa wb)).filter
        fun p => ((p.1 : Int) - (p.2 : Int)).natAbs ≤ 300).length ∧
    (2 ≤ matchCount acts wa wb →
      ({ wallet_a := wa
         wallet_b := wb
         common_tokens := commonTokens acts wa wb
         time_correlations := matchCount acts wa wb
         correlation_score := pairScore acts wa wb
         suspicion_level :=
           if (7 / 10 : ℚ) < pairScore acts wa wb then "HIGH" else "MEDIUM" } :
        WalletCorrelation) ∈ analyze_wallet_correlations acts) ∧
    (¬ 2 ≤ matchCount acts wa wb →
      ∀ c ∈ analyze_wallet_correlations acts,
        ¬(c.wallet_a = wa ∧ c.wallet_b = wb)) ∧
    (∀ c ∈ analyze_wallet_correlations acts,
      (c.suspicion_level = "HIGH" ↔ (7 / 10 : ℚ) < c.correlation_score)) := by
  refine ⟨timeCorrelations_eq_product _ _, ?_, ?_, ?_⟩
  · intro htc
    exact mem_analyze.mpr ⟨pair_length_two hpair,
      wa, wb, hpair, correlationFor_fires acts wa wb hcommon htc⟩
  · rintro hn c hc ⟨hwa, hwb⟩
    obtain ⟨-, x, y, -, hsome⟩ := mem_analyze.mp hc
    obtain ⟨ha, hb, -, -, htceq, htc2, -, -⟩ := correlationFor_eq_some hsome
    rw [hwa] at ha
    rw [hwb] at hb
    subst ha
    subst hb
    rw [htceq] at htc2
    exact hn htc2
  · intro c hc
    obtain ⟨-, x, y, -, hsome⟩ := mem_analyze.mp hc
    obtain ⟨-, -, -, -, -, -, -, hsusp⟩ := correlationFor_eq_some hsome
    rw [hsusp]
    by_cases h : (7 / 10 : ℚ) < c.correlation_score
    · rw [if_pos h]
      exact ⟨fun _ => h, fun _ => rfl⟩
    · rw [if_neg h]
      exact ⟨fun habs => absurd habs (by decide), fun habs => absurd habs h⟩

theorem C5_pair_correlation_witness :
    ("a", "b") ∈ orderedPairs (walletsIn correlationExample) ∧
    2 ≤ (commonTokens correlationExample "a" "b").length ∧
    2 ≤ matchCount correlationExample "a" "b" ∧
    ({ wallet_a := "a"
       wallet_b := "b"
       common_tokens := commonTokens correlationExample "a" "b"
       time_correlations := matchCount correlationExample "a" "b"
       correlation_score := pairScore correlationExample "a" "b"
       suspicion_level :=
         if (7 / 10 : ℚ) < pairScore correlationExample "a" "b" then "HIGH"
         else "MEDIUM" } : WalletCorrelation) ∈
      analyze_wallet_correlations correlationExample :=
  ⟨by decide, by decide, by decide,
    ((C5_pair_correlation correlationExample "a" "b" (by decide)
      (by decide)).2.1 (by decide))⟩

/-- C6: a pair of wallets whose touched-token sets share fewer than two tokens
is never reported by `analyze_wallet_correlations`, in either orientation,
regardless of timing. -/
theorem C6_few_common_tokens (acts : List WhaleActivity) (wa wb : String)
    (hfew : ((tokensTouched acts wa).toFinset ∩
      (tokensTouched acts wb).toFinset).card < 2) :
    ∀ c ∈ analyze_wallet_correlations acts,
      ¬((c.wallet_a = wa ∧ c.wallet_b = wb) ∨
        (c.wallet_a = wb ∧ c.wallet_b = wa)) := by
  intro c hc hor
  obtain ⟨-, x, y, -, hsome⟩ := mem_analyze.mp hc
  obtain ⟨ha, hb, -, hcom, -, -, -, -⟩ := correlationFor_eq_some hsome
  rw [commonTokens_length] at hcom
  rcases hor with ⟨hwa, hwb⟩ | ⟨hwa, hwb⟩
  · rw [hwa] at ha
    rw [hwb] at hb
    subst ha
    subst hb
    exact absurd hcom (by omega)
  · rw [hwa] at ha
    rw [hwb] at hb
    subst ha
    subst hb
    rw [Finset.inter_comm] at hcom
    exact absurd hcom (by omega)

theorem C6_few_common_tokens_witness :
    ((tokensTouched trioExample "a").toFinset ∩
      (tokensTouched trioExample "z").toFinset).card < 2 ∧
    ({ wallet_a := "a"
       wallet_b := "b"
       common_tokens := commonTokens trioExample "a" "b"
       time_correlations := matchCount trioExample "a" "b"
       correlation_score := pairScore trioExample "a" "b"
       suspicion_level :=
         if (7 / 10 : ℚ) < pairScore trioExample "a" "b" then "HIGH"
         else "MEDIUM" } : WalletCorrelation) ∈
      analyze_wallet_correlations trioExample ∧
    ¬((("a" : String) = "a" ∧ ("b" : String) = "z") ∨
      (("a" : String) = "z" ∧ ("b" : String) = "a")) :=
  have hmem : ({ wallet_a := "a"
                 wallet_b := "b"
                 common_tokens := commonTokens trioExample "a" "b"
                 time_correlations := matchCount trioExample "a" "b"
                 correlation_score := pairScore trioExample "a" "b"
                 suspicion_level :=
                   if (7 / 10 : ℚ) < pairScore trioExample "a" "b" then "HIGH"
                   else "MEDIUM" } : WalletCorrelation) ∈
      analyze_wallet_correlations trioExample :=
    mem_analyze.mpr ⟨by decide, "a", "b", by decide,
      correlationFor_fires trioExample "a" "b" (by decide) (by decide)⟩
  ⟨by decide, hmem,
    C6_few_common_tokens trioExample "a" "z" (by decide) _ hmem⟩

/-- C7: a failed store connection or a raised query yields the empty activity
list instead of raising; a scan over that empty result reports zero alerts;
the monitoring loop stops with the clean-interrupt flag only when a keyboard
interrupt occurs in the trace, and a trace without interrupts never stops the
loop (raising scans included). -/
theorem C7_failure_tolerance :
    (∀ msg : String,
      get_recent_whale_activity StoreFetch.connectionFailed = [] ∧
      get_recent_whale_activity (StoreFetch.queryRaised msg) = []) ∧
    (∀ saveOk : CoordinationAlert → Bool,
      (monitor_whale_activity
        (get_recent_whale_activity StoreFetch.connectionFailed)
        saveOk).alerts_generated = 0 ∧
      (monitor_whale_activity
        (get_recent_whale_activity StoreFetch.connectionFailed)
        saveOk).printed_alerts = []) ∧
    (∀ (st : MonitorState) (evs : List ScanOutcome),
      ((run_monitoring_loop st evs).2 = true → ScanOutcome.interrupted ∈ evs) ∧
      (ScanOutcome.interrupted ∉ evs → (run_monitoring_loop st evs).2 = false)) := by
  refine ⟨fun msg => ⟨rfl, rfl⟩, fun saveOk => ⟨rfl, rfl⟩, ?_⟩
  intro st evs
  induction evs generalizing st with
  | nil => simp [run_monitoring_loop]
  | cons e evs ih =>
    cases e with
    | interrupted =>
      constructor
      · intro _
        exact List.mem_cons_self _ _
      · intro h
        exact absurd (List.mem_cons_self _ _) h
    | completes n =>
      constructor
      · intro h
        exact List.mem_cons_of_mem _
          ((ih { scan_count := st.scan_count + 1
                 total_alerts := st.total_alerts + n }).1 h)
      · intro h
        exact (ih _).2 fun hm => h (List.mem_cons_of_mem _ hm)
    | raises msg =>
      constructor
      · intro h
        exact List.mem_cons_of_mem _
          ((ih { st with scan_count := st.scan_count + 1 }).1 h)
      · intro h
        exact (ih _).2 fun hm => h (List.mem_cons_of_mem _ hm)

theorem C7_failure_tolerance_witness :
    get_recent_whale_activity (StoreFetch.queryRaised "db down") = [] ∧
    (monitor_whale_activity
      (get_recent_whale_activity StoreFetch.connectionFailed)
      (fun _ => true)).alerts_generated = 0 ∧
    ScanOutcome.interrupted ∉
      [ScanOutcome.raises "db down", ScanOutcome.completes 0] ∧
    (run_monitoring_loop { scan_count := 0, total_alerts := 0 }
      [ScanOutcome.raises "db down", ScanOutcome.completes 0]).2 = false :=
  ⟨(C7_failure_tolerance.1 "db down").2,
    (C7_failure_tolerance.2.1 (fun _ => true)).1,
    by decide,
    (C7_failure_tolerance.2.2 { scan_count := 0, total_alerts := 0 } _).2
      (by decide)⟩

/-- C8: both detection passes are deterministic functions of the activity
snapshot: equal snapshots give equal alert lists and equal correlation lists,
with no dependence on anything besides the input. -/
theorem C8_deterministic (acts1 acts2 : List WhaleActivity) (h : acts1 = acts2) :
    detect_coordination_patterns acts1 = detect_coordination_patterns acts2 ∧
    analyze_wallet_correlations acts1 = analyze_wallet_correlations acts2 := by
  subst h
  exact ⟨rfl, rfl⟩

theorem C8_deterministic_witness :
    pumpExample = pumpExample ∧
    detect_coordination_patterns pumpExample =
      detect_coordination_patterns pumpExample ∧
    analyze_wallet_correlations pumpExample =
      analyze_wallet_correlations pumpExample :=
  ⟨rfl, C8_deterministic pumpExample pumpExample rfl⟩

/-- C10: the per-scan alert count equals the number of coordination alerts
whose database save succeeded; an alert whose save failed is still among the
printed alerts but excluded from the scan count and from the cumulative
total_alerts counter. -/
theorem C10_saved_alerts_counted (recent : List WhaleActivity)
    (saveOk : CoordinationAlert → Bool) (st : MonitorState) :
    (monitor_whale_activity recent saveOk).alerts_generated =
      ((detect_coordination_patterns recent).filter saveOk).length ∧
    (∀ al ∈ detect_coordination_patterns recent,
      al ∈ (monitor_whale_activity recent saveOk).printed_alerts) ∧
    (run_monitoring_loop st
      [ScanOutcome.completes
        (monitor_whale_activity recent saveOk).alerts_generated]).1.total_alerts =
      st.total_alerts +
        ((detect_coordination_patterns recent).filter saveOk).length := by
  have hcount : (monitor_whale_activity recent saveOk).alerts_generated =
      ((detect_coordination_patterns recent).filter saveOk).length := by
    unfold monitor_whale_activity
    by_cases h : recent.isEmpty
    · have hnil : recent = [] := List.isEmpty_iff.mp h
      subst hnil
      simp [detect_coordination_patterns]
    · simp [h, List.countP_eq_length_filter]
  refine ⟨hcount, ?_, ?_⟩
  · intro al hal
    unfold monitor_whale_activity
    by_cases h : recent.isEmpty
    · have hnil : recent = [] := List.isEmpty_iff.mp h
      subst hnil
      simp [detect_coordination_patterns] at hal
    · simpa [h] using hal
  · simp [run_monitoring_loop, hcount]

theorem C10_saved_alerts_counted_witness :
    (monitor_whale_activity pumpExample (fun _ => false)).alerts_generated =
      ((detect_coordination_patterns pumpExample).filter (fun _ => false)).length ∧
    ((detect_coordination_patterns pumpExample).filter (fun _ => false)).length
      = 0 ∧
    pumpAlert "PEPE" 60 (buyActivities (bucketActivities pumpExample "PEPE" 60)) ∈
      (monitor_whale_activity pumpExample (fun _ => false)).printed_alerts :=
  have hmem : pumpAlert "PEPE" 60
      (buyActivities (bucketActivities pumpExample "PEPE" 60)) ∈
      detect_coordination_patterns pumpExample :=
    mem_detect.mpr ⟨"PEPE", by decide, 60, by decide,
      mem_bucketAlerts.mpr ⟨by decide, Or.inl ⟨by decide, rfl⟩⟩⟩
  ⟨(C10_saved_alerts_counted pumpExample (fun _ => false)
      { scan_count := 0, total_alerts := 0 }).1,
    by decide,
    (C10_saved_alerts_counted pumpExample (fun _ => false)
      { scan_count := 0, total_alerts := 0 }).2.1 _ hmem⟩

end FCB
